import Mathlib

/-!
Shallow embedding of the viewport engine in `src/App.tsx` of
Duritz-Labs/DragonSwordMapApp: a pan/zoom controller for a fixed-size map
image, with boundary clamping, zoom-to-cursor, drag panning and
pointer-to-image coordinate reporting.

Numbers are modelled as exact rationals (ℚ).  The mutable React state
(`scale`, `position`, `mouseCoords`, `isDragging`, `dragStart`) becomes the
record `AppState`; every event handler becomes a pure function from inputs
and the old state to the new state.  The container's bounding rectangle,
which may be unavailable before the ref attaches, is an `Option Rect`.
-/

/-- A DOMRect as returned by `getBoundingClientRect()`: the fields the code
reads (`left`, `top`, `width`, `height`). -/
@[ext] structure Rect where
  left : ℚ
  top : ℚ
  width : ℚ
  height : ℚ
deriving DecidableEq, Repr

/-- A 2-D point `{x, y}` as used for `position`, `mouseCoords`, `dragStart`. -/
@[ext] structure Pos where
  x : ℚ
  y : ℚ
deriving DecidableEq, Repr

/-- Constant `ORIG_WIDTH = 3638` (App.tsx line 6). -/
def ORIG_WIDTH : ℚ := 3638

/-- Constant `ORIG_HEIGHT = 4855` (App.tsx line 7). -/
def ORIG_HEIGHT : ℚ := 4855

/-- Constant `MIN_SCALE = 0.5` (App.tsx line 8). -/
def MIN_SCALE : ℚ := 1/2

/-- Constant `MAX_SCALE = 1.5` (App.tsx line 9). -/
def MAX_SCALE : ℚ := 3/2

/-- The React state of the `App` component (App.tsx lines 12-16):
`scale`, `position`, `mouseCoords`, `isDragging` and the `dragStart` ref. -/
@[ext] structure AppState where
  scale : ℚ
  position : Pos
  mouseCoords : Pos
  isDragging : Bool
  dragStart : Pos
deriving DecidableEq, Repr

/-- The `useState` initial values: scale `0.8`, everything else zero
(App.tsx lines 12-16). -/
def initState : AppState :=
  { scale := 8/10
    position := ⟨0, 0⟩
    mouseCoords := ⟨0, 0⟩
    isDragging := false
    dragStart := ⟨0, 0⟩ }

/-- One axis of `clampPosition` (App.tsx lines 24-44): with
`content = imageSize * scale` and `view` the surface size on that axis,
the bounds are `minV = view - content`, `maxV = 0`, overridden to the
centering value `(view - content) / 2` when `content < view`; the result is
`Math.min(Math.max(cand, minV), maxV)`.  The source computes x and y with
this identical formula. -/
def clampAxis (view content cand : ℚ) : ℚ :=
  let minV := if content < view then (view - content) / 2 else view - content
  let maxV := if content < view then (view - content) / 2 else 0
  min (max cand minV) maxV

/-- Function `clampPosition` (App.tsx lines 21-47).  If `containerRef.current` is
absent it returns the candidate unchanged (line 22); otherwise it clamps
each axis independently against the container's bounding rect. -/
def clampPosition (container : Option Rect) (newX newY currentScale : ℚ) : Pos :=
  match container with
  | none => ⟨newX, newY⟩
  | some c =>
      ⟨clampAxis c.width (ORIG_WIDTH * currentScale) newX,
       clampAxis c.height (ORIG_HEIGHT * currentScale) newY⟩

/-- The step `const delta = e.deltaY > 0 ? -0.1 : 0.1` (App.tsx line 52). -/
def wheelDelta (deltaY : ℚ) : ℚ := if 0 < deltaY then -(1/10) else 1/10

/-- The clamped scale `Math.min(Math.max(scale + delta, MIN_SCALE), MAX_SCALE)`
(App.tsx line 53). -/
def wheelNewScale (deltaY sc : ℚ) : ℚ :=
  min (max (sc + wheelDelta deltaY) MIN_SCALE) MAX_SCALE

/-- Handler `handleWheel` (App.tsx lines 50-72).  Computes the clamped new scale;
returns early if it equals the current scale, or if the container rect is
unavailable; otherwise commits the new scale and the clamped
zoom-to-cursor offset. -/
def handleWheel (deltaY clientX clientY : ℚ) (rect : Option Rect)
    (s : AppState) : AppState :=
  let newScale := wheelNewScale deltaY s.scale
  if newScale = s.scale then s
  else
    match rect with
    | none => s
    | some r =>
        let mouseX := clientX - r.left
        let mouseY := clientY - r.top
        let pointX := (mouseX - s.position.x) / s.scale
        let pointY := (mouseY - s.position.y) / s.scale
        let nextX := mouseX - pointX * newScale
        let nextY := mouseY - pointY * newScale
        { s with scale := newScale
                 position := clampPosition rect nextX nextY newScale }

/-- Handler `handleMouseDown` (App.tsx lines 75-79): a non-left button is ignored;
a left button enters the dragging state and records
`dragStart = client - position`. -/
def handleMouseDown (button : Nat) (clientX clientY : ℚ)
    (s : AppState) : AppState :=
  if button ≠ 0 then s
  else
    { s with isDragging := true
             dragStart := ⟨clientX - s.position.x, clientY - s.position.y⟩ }

/-- The coordinate report computed in `handleMouseMove`
(App.tsx lines 86-99): image coordinates from the local pointer position,
rounded, vertically flipped for y, and clamped to the image bounds. -/
def coordReport (r : Rect) (clientX clientY : ℚ) (pos : Pos) (sc : ℚ) : Pos :=
  let mouseX := clientX - r.left
  let mouseY := clientY - r.top
  let imgX := (mouseX - pos.x) / sc
  let imgY := (mouseY - pos.y) / sc
  let displayX : ℤ := round imgX
  let displayY : ℤ := round (ORIG_HEIGHT - imgY)
  ⟨min (max (displayX : ℚ) 0) ORIG_WIDTH,
   min (max (displayY : ℚ) 0) ORIG_HEIGHT⟩

/-- Handler `handleMouseMove` (App.tsx lines 81-107): with no container rect it
returns early; otherwise it publishes the coordinate report (computed from
the pre-move `position`), then, only while dragging, commits the clamped
offset `client - dragStart`. -/
def handleMouseMove (clientX clientY : ℚ) (rect : Option Rect)
    (s : AppState) : AppState :=
  match rect with
  | none => s
  | some r =>
      let s1 := { s with mouseCoords := coordReport r clientX clientY s.position s.scale }
      if s.isDragging = false then s1
      else
        let nextX := clientX - s.dragStart.x
        let nextY := clientY - s.dragStart.y
        { s1 with position := clampPosition rect nextX nextY s.scale }

/-- Handler `handleMouseUp` (App.tsx lines 109-111), also bound to mouse-leave. -/
def handleMouseUp (s : AppState) : AppState :=
  { s with isDragging := false }

/-- The center-on-mount effect (App.tsx lines 114-123): if the container is
mounted, set scale to `0.8` and the position to the clamped centered
offset; otherwise do nothing. -/
def centerOnMount (container : Option Rect) (s : AppState) : AppState :=
  match container with
  | none => s
  | some c =>
      let initialScale : ℚ := 8/10
      let initialX := (c.width - ORIG_WIDTH * initialScale) / 2
      let initialY := (c.height - ORIG_HEIGHT * initialScale) / 2
      { s with scale := initialScale
               position := clampPosition container initialX initialY initialScale }

/-- The image `onLoad` callback (App.tsx lines 160-162):
`setPosition(prev => clampPosition(prev.x, prev.y, scale))`. -/
def onLoad (container : Option Rect) (s : AppState) : AppState :=
  { s with position := clampPosition container s.position.x s.position.y s.scale }

/-- States reachable through the engine's operations with a fixed measured
container rect `r`: the post-mount centered state, then any sequence of
wheel, mouse-down/move/up and image-load events. -/
inductive Reachable (r : Rect) : AppState → Prop
  | init : Reachable r (centerOnMount (some r) initState)
  | wheel (s : AppState) (dY cX cY : ℚ) :
      Reachable r s → Reachable r (handleWheel dY cX cY (some r) s)
  | down (s : AppState) (b : Nat) (cX cY : ℚ) :
      Reachable r s → Reachable r (handleMouseDown b cX cY s)
  | move (s : AppState) (cX cY : ℚ) :
      Reachable r s → Reachable r (handleMouseMove cX cY (some r) s)
  | up (s : AppState) : Reachable r s → Reachable r (handleMouseUp s)
  | load (s : AppState) : Reachable r s → Reachable r (onLoad (some r) s)

/-! ### Concrete fixtures

A 1000×800 surface at the page origin, and states taken from the spec's
scenarios: `stateA` is the recentred Scenario-A state (scale `0.8`, offset
`(-955.2, -1542)`), `stateD` is Scenario A mid-drag with the anchor captured
at pointer `(500, 400)`, `statePanned` is a panned-away in-bounds state, and
`sMaxScale` sits at the maximum scale. -/

/-- A measured 1000×800 container at the page origin. -/
def rectA : Rect := ⟨0, 0, 1000, 800⟩

/-- Scenario A: scale `0.8`, offset `(-955.2, -1542)` (the centered clamped
offset for `rectA`). -/
def stateA : AppState := { initState with position := ⟨-(4776/5), -1542⟩ }

/-- Scenario A while dragging, anchor captured at pointer `(500, 400)`:
`dragStart = (500 - (-955.2), 400 - (-1542)) = (1455.2, 1942)`. -/
def stateD : AppState :=
  { stateA with isDragging := true, dragStart := ⟨7276/5, 1942⟩ }

/-- An in-bounds state panned away from center: offset `(-100, -100)` at
scale `0.8`. -/
def statePanned : AppState := { initState with position := ⟨-100, -100⟩ }

/-- A state already at the maximum scale. -/
def sMaxScale : AppState := { initState with scale := 3/2 }

/-- A measured container whose size is zero on both axes. -/
def zeroRect : Rect := ⟨0, 0, 0, 0⟩

/-! ### Helper lemmas -/

/-- The lower clamp bound never exceeds the upper clamp bound on an axis. -/
lemma clampAxis_lo_le_hi (view content : ℚ) :
    (if content < view then (view - content) / 2 else view - content)
      ≤ (if content < view then (view - content) / 2 else 0) := by
  split
  · exact le_refl _
  · linarith [not_lt.mp (by assumption : ¬content < view)]

/-- Clamping into a nonempty interval is idempotent. -/
lemma clamp1_idem (lo hi v : ℚ) (h : lo ≤ hi) :
    min (max (min (max v lo) hi) lo) hi = min (max v lo) hi := by
  have h1 : lo ≤ min (max v lo) hi := le_min (le_max_right v lo) h
  have h2 : min (max v lo) hi ≤ hi := min_le_right _ _
  rw [max_eq_left h1, min_eq_left h2]

/-- Lemma: `clampAxis` is idempotent. -/
lemma clampAxis_idem (view content cand : ℚ) :
    clampAxis view content (clampAxis view content cand)
      = clampAxis view content cand := by
  simp only [clampAxis]
  exact clamp1_idem _ _ _ (clampAxis_lo_le_hi view content)

/-- Lemma: `clampPosition` with a measured container is idempotent: its output is a
fixed point of another clamp at the same scale. -/
lemma clampPosition_idem (c : Rect) (x y sc : ℚ) :
    clampPosition (some c) (clampPosition (some c) x y sc).x
        (clampPosition (some c) x y sc).y sc
      = clampPosition (some c) x y sc := by
  simp only [clampPosition]
  exact Pos.ext (clampAxis_idem _ _ _) (clampAxis_idem _ _ _)

/-- Closed form of one clamp axis: clamp into `[view - content, 0]` when the
content covers the view, the centering constant otherwise. -/
lemma clampAxis_spec (view content cand : ℚ) :
    clampAxis view content cand =
      if view ≤ content then min (max cand (view - content)) 0
      else (view - content) / 2 := by
  simp only [clampAxis]
  by_cases h : content < view
  · rw [if_pos h, if_pos h, if_neg (not_le.mpr h)]
    exact min_eq_right (le_max_right _ _)
  · rw [if_neg h, if_neg h, if_pos (not_lt.mp h)]

/-- The scale committed by a wheel event stays within the scale range. -/
lemma wheelNewScale_mem (dY sc : ℚ) :
    MIN_SCALE ≤ wheelNewScale dY sc ∧ wheelNewScale dY sc ≤ MAX_SCALE := by
  unfold wheelNewScale
  exact ⟨le_min (le_max_right _ _) (by norm_num [MIN_SCALE, MAX_SCALE]),
    min_le_right _ _⟩

/-- A wheel event whose clamped scale equals the current scale returns the
state unchanged (the early return on App.tsx line 55). -/
lemma handleWheel_of_scale_eq (dY cX cY : ℚ) (rect : Option Rect)
    (s : AppState) (h : wheelNewScale dY s.scale = s.scale) :
    handleWheel dY cX cY rect s = s := by
  simp only [handleWheel, if_pos h]

example : clampPosition none 5 7 1 = ⟨5, 7⟩ := rfl

example :
    clampPosition (some ⟨0, 0, 1000, 800⟩) 3 3 (8/10) = ⟨0, 0⟩ := by
  simp only [clampPosition, clampAxis, ORIG_WIDTH, ORIG_HEIGHT, min_def, max_def]
  norm_num

example :
    (centerOnMount (some ⟨0, 0, 1000, 800⟩) initState).position
      = ⟨-(4776/5), -1542⟩ := by
  simp only [centerOnMount, clampPosition, clampAxis, ORIG_WIDTH, ORIG_HEIGHT,
    min_def, max_def]
  norm_num

/-! ### Claim theorems -/

/-- Claim C2: `clampPosition` acts per axis independently; on an axis where
`imageSize * scale >= surfaceSize` it clamps the candidate into
`[surfaceSize - imageSize * scale, 0]`, and on an axis where
`imageSize * scale < surfaceSize` it returns the centering value
`(surfaceSize - imageSize * scale) / 2` regardless of the candidate.  As a
Lean function of its arguments it is pure. -/
theorem clampPosition_per_axis (c : Rect) (x y sc : ℚ) :
    clampPosition (some c) x y sc =
      ⟨if c.width ≤ ORIG_WIDTH * sc
          then min (max x (c.width - ORIG_WIDTH * sc)) 0
          else (c.width - ORIG_WIDTH * sc) / 2,
       if c.height ≤ ORIG_HEIGHT * sc
          then min (max y (c.height - ORIG_HEIGHT * sc)) 0
          else (c.height - ORIG_HEIGHT * sc) / 2⟩ := by
  simp only [clampPosition]
  exact Pos.ext (clampAxis_spec _ _ _) (clampAxis_spec _ _ _)

/-- Claim C9: when the container cannot be queried, the clamp helper returns
the candidate offset unchanged instead of deferring, so an arbitrary
unclamped candidate (here `(-99999, 99999)`, far outside any valid range)
is committed verbatim by a caller such as the image-load handler. -/
theorem clampPosition_absent_container (x y sc : ℚ) :
    clampPosition none x y sc = ⟨x, y⟩ ∧
      (onLoad none { initState with position := ⟨-99999, 99999⟩ }).position
        = ⟨-99999, 99999⟩ :=
  ⟨rfl, rfl⟩

/-- Claim C4: a zoom operation whose clamped new scale equals the current
scale is a complete no-op: the whole state, scale and offset included, is
returned unchanged. -/
theorem wheel_noop_at_bound (dY cX cY : ℚ) (rect : Option Rect)
    (s : AppState) (h : wheelNewScale dY s.scale = s.scale) :
    handleWheel dY cX cY rect s = s :=
  handleWheel_of_scale_eq dY cX cY rect s h

/-- Witness for C4: zooming in (`deltaY = -1`) while already at
`maxScale = 1.5` clamps the scale back to `1.5` and leaves the state
unchanged. -/
theorem wheel_noop_at_bound_witness :
    wheelNewScale (-1) sMaxScale.scale = sMaxScale.scale ∧
      handleWheel (-1) 500 400 (some rectA) sMaxScale = sMaxScale := by
  have h : wheelNewScale (-1) sMaxScale.scale = sMaxScale.scale := by
    norm_num [wheelNewScale, wheelDelta, MIN_SCALE, MAX_SCALE, sMaxScale,
      initState, min_def, max_def]
  exact ⟨h, wheel_noop_at_bound (-1) 500 400 (some rectA) sMaxScale h⟩

/-- Claim C7 (amended): when the display surface is *unmeasured* — the
container reference is absent — zoom, pan/coordinate reporting, mount
recentring and the image-load re-clamp are all no-ops that mutate no state.
(A measured zero-size surface is not special-cased; see the
counterexample.) -/
theorem unmeasured_surface_noop (dY cX cY : ℚ) (s : AppState) :
    handleWheel dY cX cY none s = s ∧
      handleMouseMove cX cY none s = s ∧
      centerOnMount none s = s ∧
      onLoad none s = s := by
  refine ⟨?_, rfl, rfl, rfl⟩
  simp only [handleWheel]
  split
  · rfl
  · rfl

/-- Counterexample for C7 as stated: with a *measured but zero-size*
surface, a zoom-in wheel event is not deferred — it commits a new scale
(`0.9` from `0.8`), mutating the state. -/
theorem zero_size_surface_mutates :
    (handleWheel (-1) 0 0 (some zeroRect) initState).scale
      ≠ initState.scale := by
  have h : ¬ wheelNewScale (-1) initState.scale = initState.scale := by
    norm_num [wheelNewScale, wheelDelta, MIN_SCALE, MAX_SCALE, initState,
      min_def, max_def]
  simp only [handleWheel, if_neg h]
  exact h

/-- Claim C1: for a zoom operation whose clamp did not alter the candidate
offset, the committed offset equals
`pointerDisplayPos - imagePoint * newScale` (with
`imagePoint = (pointerDisplayPos - oldOffset) / oldScale`), and the
image-space point computed from the pointer position is the same before and
after the operation, on both axes. -/
theorem zoom_to_cursor (dY cX cY : ℚ) (r : Rect) (s : AppState)
    (h0 : 0 < s.scale)
    (hclamp :
      clampPosition (some r)
          ((cX - r.left) -
            ((cX - r.left) - s.position.x) / s.scale * wheelNewScale dY s.scale)
          ((cY - r.top) -
            ((cY - r.top) - s.position.y) / s.scale * wheelNewScale dY s.scale)
          (wheelNewScale dY s.scale)
        = ⟨(cX - r.left) -
            ((cX - r.left) - s.position.x) / s.scale * wheelNewScale dY s.scale,
           (cY - r.top) -
            ((cY - r.top) - s.position.y) / s.scale * wheelNewScale dY s.scale⟩) :
    (handleWheel dY cX cY (some r) s).position =
        ⟨(cX - r.left) -
            ((cX - r.left) - s.position.x) / s.scale
              * (handleWheel dY cX cY (some r) s).scale,
         (cY - r.top) -
            ((cY - r.top) - s.position.y) / s.scale
              * (handleWheel dY cX cY (some r) s).scale⟩ ∧
      ((cX - r.left) - (handleWheel dY cX cY (some r) s).position.x)
          / (handleWheel dY cX cY (some r) s).scale
        = ((cX - r.left) - s.position.x) / s.scale ∧
      ((cY - r.top) - (handleWheel dY cX cY (some r) s).position.y)
          / (handleWheel dY cX cY (some r) s).scale
        = ((cY - r.top) - s.position.y) / s.scale := by
  have hne : s.scale ≠ 0 := h0.ne'
  by_cases h : wheelNewScale dY s.scale = s.scale
  · simp only [handleWheel, if_pos h]
    refine ⟨?_, trivial, trivial⟩
    ext
    · dsimp only
      rw [div_mul_cancel₀ _ hne, sub_sub_cancel]
    · dsimp only
      rw [div_mul_cancel₀ _ hne, sub_sub_cancel]
  · have hnsp : (0:ℚ) < wheelNewScale dY s.scale :=
      lt_of_lt_of_le (by norm_num [MIN_SCALE]) (wheelNewScale_mem dY s.scale).1
    simp only [handleWheel, if_neg h, hclamp]
    refine ⟨trivial, ?_, ?_⟩
    · dsimp only
      rw [sub_sub_cancel, mul_div_cancel_right₀ _ hnsp.ne']
    · dsimp only
      rw [sub_sub_cancel, mul_div_cancel_right₀ _ hnsp.ne']

/-- Witness for C1: zooming in (`deltaY = -1`, scale `0.8 → 0.9`) at pointer
`(500, 400)` from the Scenario-A state; the candidate offset
`(-1137.1, -1784.75)` is already in bounds so the clamp does not alter it,
and the image point under the pointer is preserved. -/
theorem zoom_to_cursor_witness :
    ((0 : ℚ) < stateA.scale ∧
      clampPosition (some rectA)
          ((500 - rectA.left) -
            ((500 - rectA.left) - stateA.position.x) / stateA.scale
              * wheelNewScale (-1) stateA.scale)
          ((400 - rectA.top) -
            ((400 - rectA.top) - stateA.position.y) / stateA.scale
              * wheelNewScale (-1) stateA.scale)
          (wheelNewScale (-1) stateA.scale)
        = ⟨(500 - rectA.left) -
            ((500 - rectA.left) - stateA.position.x) / stateA.scale
              * wheelNewScale (-1) stateA.scale,
           (400 - rectA.top) -
            ((400 - rectA.top) - stateA.position.y) / stateA.scale
              * wheelNewScale (-1) stateA.scale⟩) ∧
    ((handleWheel (-1) 500 400 (some rectA) stateA).position =
        ⟨(500 - rectA.left) -
            ((500 - rectA.left) - stateA.position.x) / stateA.scale
              * (handleWheel (-1) 500 400 (some rectA) stateA).scale,
         (400 - rectA.top) -
            ((400 - rectA.top) - stateA.position.y) / stateA.scale
              * (handleWheel (-1) 500 400 (some rectA) stateA).scale⟩ ∧
      ((500 - rectA.left) - (handleWheel (-1) 500 400 (some rectA) stateA).position.x)
          / (handleWheel (-1) 500 400 (some rectA) stateA).scale
        = ((500 - rectA.left) - stateA.position.x) / stateA.scale ∧
      ((400 - rectA.top) - (handleWheel (-1) 500 400 (some rectA) stateA).position.y)
          / (handleWheel (-1) 500 400 (some rectA) stateA).scale
        = ((400 - rectA.top) - stateA.position.y) / stateA.scale) := by
  refine ⟨⟨?_, ?_⟩, zoom_to_cursor (-1) 500 400 rectA stateA ?_ ?_⟩
  · norm_num [stateA, initState]
  · norm_num [clampPosition, clampAxis, wheelNewScale, wheelDelta, stateA,
      initState, rectA, MIN_SCALE, MAX_SCALE, ORIG_WIDTH, ORIG_HEIGHT,
      min_def, max_def, Pos.mk.injEq]
  · norm_num [stateA, initState]
  · norm_num [clampPosition, clampAxis, wheelNewScale, wheelDelta, stateA,
      initState, rectA, MIN_SCALE, MAX_SCALE, ORIG_WIDTH, ORIG_HEIGHT,
      min_def, max_def, Pos.mk.injEq]

/-- Claim C5: on every pointer-move with a measured container, the published
report is `round((localPos.x - offset.x) / scale)` clamped to
`[0, ORIG_WIDTH]` and `round(ORIG_HEIGHT - (localPos.y - offset.y) / scale)`
clamped to `[0, ORIG_HEIGHT]`; in particular from the Scenario-A state
(scale `0.8`, offset `(-955.2, -1542)`) a pointer at `(500, 400)` reports
`(1819, 2428)`. -/
theorem mouseMove_report (cX cY : ℚ) (r : Rect) (s : AppState) :
    ((handleMouseMove cX cY (some r) s).mouseCoords =
      ⟨min (max ((round (((cX - r.left) - s.position.x) / s.scale) : ℚ)) 0)
          ORIG_WIDTH,
       min (max
            ((round (ORIG_HEIGHT - ((cY - r.top) - s.position.y) / s.scale) : ℚ))
            0)
          ORIG_HEIGHT⟩) ∧
    (handleMouseMove 500 400 (some rectA) stateA).mouseCoords = ⟨1819, 2428⟩ := by
  constructor
  · have hrep : coordReport r cX cY s.position s.scale =
        ⟨min (max ((round (((cX - r.left) - s.position.x) / s.scale) : ℚ)) 0)
            ORIG_WIDTH,
         min (max
              ((round (ORIG_HEIGHT - ((cY - r.top) - s.position.y) / s.scale) : ℚ))
              0)
            ORIG_HEIGHT⟩ := rfl
    by_cases h : s.isDragging = false
    · simp only [handleMouseMove, if_pos h, hrep]
    · simp only [handleMouseMove, if_neg h, hrep]
  · have h : stateA.isDragging = false := rfl
    simp only [handleMouseMove, if_pos h]
    norm_num [coordReport, stateA, initState, rectA, ORIG_WIDTH, ORIG_HEIGHT,
      round_eq, min_def, max_def, Pos.mk.injEq]

/-- Claim C8: a pointer-move while not dragging can change only the
published coordinate report — scale, offset, drag flag and drag anchor are
all unchanged — and a pointer-down with a non-primary button changes
nothing at all. -/
theorem idle_move_and_nonprimary_down (cX cY dX dY : ℚ) (b : Nat)
    (rect : Option Rect) (s : AppState)
    (hidle : s.isDragging = false) (hb : b ≠ 0) :
    ((handleMouseMove cX cY rect s).scale = s.scale ∧
     (handleMouseMove cX cY rect s).position = s.position ∧
     (handleMouseMove cX cY rect s).isDragging = s.isDragging ∧
     (handleMouseMove cX cY rect s).dragStart = s.dragStart) ∧
    handleMouseDown b dX dY s = s := by
  constructor
  · cases rect with
    | none => exact ⟨rfl, rfl, rfl, rfl⟩
    | some r =>
        simp only [handleMouseMove, if_pos hidle]
        refine ⟨?_, ?_, ?_, ?_⟩ <;> first | rfl | trivial
  · simp only [handleMouseDown, if_pos hb]

/-- Witness for C8: from the Scenario-A idle state, a pointer-move at
`(500, 400)` and a button-2 pointer-down at `(10, 20)`. -/
theorem idle_move_and_nonprimary_down_witness :
    (stateA.isDragging = false ∧ (2 : Nat) ≠ 0) ∧
    (((handleMouseMove 500 400 (some rectA) stateA).scale = stateA.scale ∧
      (handleMouseMove 500 400 (some rectA) stateA).position = stateA.position ∧
      (handleMouseMove 500 400 (some rectA) stateA).isDragging = stateA.isDragging ∧
      (handleMouseMove 500 400 (some rectA) stateA).dragStart = stateA.dragStart) ∧
     handleMouseDown 2 10 20 stateA = stateA) :=
  ⟨⟨rfl, by decide⟩,
   idle_move_and_nonprimary_down 500 400 10 20 2 (some rectA) stateA rfl
     (by decide)⟩

/-- Claim C10: on a pointer-move while dragging, the published report is
computed from the offset as it was before this event's pan commit, while
the committed offset is the clamped `client - dragStart`; concretely, in
Scenario A dragging from `(500, 400)` to `(520, 380)` the event reports
`(1844, 2453)` — the report recomputed from the offset it just committed
would instead be `(1819, 2428)`, the image point the pan holds fixed. -/
theorem drag_report_stale_offset (cX cY : ℚ) (r : Rect) (s : AppState)
    (hdrag : s.isDragging = true) :
    (handleMouseMove cX cY (some r) s).mouseCoords =
        coordReport r cX cY s.position s.scale ∧
      (handleMouseMove cX cY (some r) s).position =
        clampPosition (some r) (cX - s.dragStart.x) (cY - s.dragStart.y)
          s.scale ∧
      (handleMouseMove 520 380 (some rectA) stateD).mouseCoords ≠
        coordReport rectA 520 380
          (handleMouseMove 520 380 (some rectA) stateD).position
          stateD.scale := by
  have hne : ¬ s.isDragging = false := by simp [hdrag]
  refine ⟨?_, ?_, ?_⟩
  · simp only [handleMouseMove, if_neg hne]
  · simp only [handleMouseMove, if_neg hne]
  · have hD : ¬ stateD.isDragging = false := by decide
    simp only [handleMouseMove, if_neg hD]
    norm_num [coordReport, clampPosition, clampAxis, stateD, stateA,
      initState, rectA, ORIG_WIDTH, ORIG_HEIGHT, round_eq, min_def, max_def,
      Pos.mk.injEq]

/-- Witness for C10: the theorem applied to the concrete mid-drag state
`stateD` at pointer `(520, 380)`. -/
theorem drag_report_stale_offset_witness :
    stateD.isDragging = true ∧
    ((handleMouseMove 520 380 (some rectA) stateD).mouseCoords =
        coordReport rectA 520 380 stateD.position stateD.scale ∧
      (handleMouseMove 520 380 (some rectA) stateD).position =
        clampPosition (some rectA) (520 - stateD.dragStart.x)
          (380 - stateD.dragStart.y) stateD.scale ∧
      (handleMouseMove 520 380 (some rectA) stateD).mouseCoords ≠
        coordReport rectA 520 380
          (handleMouseMove 520 380 (some rectA) stateD).position
          stateD.scale) :=
  ⟨rfl, drag_report_stale_offset 520 380 rectA stateD rfl⟩

/-- Counterexample for C6 as stated: from the in-bounds panned state with
offset `(-100, -100)` at scale `0.8` on a 1000×800 surface, the asset-ready
handler commits `(-100, -100)` (the re-clamped previous offset), which is
not the clamp of the centered offset `(-955.2, -1542)` that the mount
recentring routine would produce. -/
theorem onLoad_not_recentring :
    (onLoad (some rectA) statePanned).position ≠
      clampPosition (some rectA)
        ((rectA.width - ORIG_WIDTH * statePanned.scale) / 2)
        ((rectA.height - ORIG_HEIGHT * statePanned.scale) / 2)
        statePanned.scale := by
  norm_num [onLoad, clampPosition, clampAxis, statePanned, initState, rectA,
    ORIG_WIDTH, ORIG_HEIGHT, min_def, max_def, Pos.mk.injEq]

/-- Claim C6 (amended): on asset-ready the engine re-clamps the *current*
offset at the current scale — it does not recompute the centered offset —
so whenever the current offset already satisfies the clamp invariant (as in
every reachable state) the asset-ready event leaves the state unchanged. -/
theorem onLoad_reclamps_current (container : Option Rect) (s : AppState)
    (h : clampPosition container s.position.x s.position.y s.scale
          = s.position) :
    onLoad container s = s := by
  simp only [onLoad, h]

/-- Witness for C6 (amended): the Scenario-A state is clamp-invariant, so
the asset-ready re-clamp leaves it unchanged. -/
theorem onLoad_reclamps_current_witness :
    clampPosition (some rectA) stateA.position.x stateA.position.y
        stateA.scale = stateA.position ∧
      onLoad (some rectA) stateA = stateA := by
  have h : clampPosition (some rectA) stateA.position.x stateA.position.y
      stateA.scale = stateA.position := by
    norm_num [clampPosition, clampAxis, stateA, initState, rectA,
      ORIG_WIDTH, ORIG_HEIGHT, min_def, max_def, Pos.mk.injEq]
  exact ⟨h, onLoad_reclamps_current (some rectA) stateA h⟩

/-- Claim C3: every state reachable through initialization, zoom, pan
(mouse down/move/up) and the asset-ready re-clamp, with a fixed measured
surface, satisfies the state invariant: the scale lies in
`[MIN_SCALE, MAX_SCALE]` and the offset is a fixed point of the clamp at
the current scale and surface size. -/
theorem reachable_invariant (r : Rect) (s : AppState) (h : Reachable r s) :
    (MIN_SCALE ≤ s.scale ∧ s.scale ≤ MAX_SCALE) ∧
      clampPosition (some r) s.position.x s.position.y s.scale
        = s.position := by
  induction h with
  | init =>
      refine ⟨⟨?_, ?_⟩, ?_⟩
      · norm_num [centerOnMount, MIN_SCALE]
      · norm_num [centerOnMount, MAX_SCALE]
      · simp only [centerOnMount]
        exact clampPosition_idem r _ _ _
  | wheel s dY cX cY hs ih =>
      by_cases hq : wheelNewScale dY s.scale = s.scale
      · rw [handleWheel_of_scale_eq dY cX cY (some r) s hq]
        exact ih
      · simp only [handleWheel, if_neg hq]
        exact ⟨wheelNewScale_mem dY s.scale, clampPosition_idem r _ _ _⟩
  | down s b cX cY hs ih =>
      by_cases hb : b ≠ 0
      · simp only [handleMouseDown, if_pos hb]
        exact ih
      · simp only [handleMouseDown, if_neg hb]
        exact ih
  | move s cX cY hs ih =>
      by_cases hd : s.isDragging = false
      · simp only [handleMouseMove, if_pos hd]
        exact ih
      · simp only [handleMouseMove, if_neg hd]
        exact ⟨ih.1, clampPosition_idem r _ _ _⟩
  | up s hs ih =>
      simpa only [handleMouseUp] using ih
  | load s hs ih =>
      simp only [onLoad]
      exact ⟨ih.1, clampPosition_idem r _ _ _⟩

/-- Witness for C3: the post-mount state on the 1000×800 surface is
reachable and satisfies the invariant. -/
theorem reachable_invariant_witness :
    (MIN_SCALE ≤ (centerOnMount (some rectA) initState).scale ∧
        (centerOnMount (some rectA) initState).scale ≤ MAX_SCALE) ∧
      clampPosition (some rectA)
          (centerOnMount (some rectA) initState).position.x
          (centerOnMount (some rectA) initState).position.y
          (centerOnMount (some rectA) initState).scale
        = (centerOnMount (some rectA) initState).position :=
  reachable_invariant rectA _ Reachable.init
